import Mathlib

/-!
# Verification of the `track` repository's price-change detection and
# order/inventory aggregation pipeline

This file gives a shallow embedding, in Lean 4, of the two components the
specification singles out:

* the **Price-Change Detector** (`checkPriceChanges` and the scrape route
  `POST /api/items/:id/scrape` of the MongoDB/Express price tracker in
  `db.js`), and
* the **Aggregation Engine** (the in-memory order/product store and the
  `GET /api/dashboard` endpoint of the Express server in `server.js`).

JavaScript numbers are modelled as exact rationals (`ℚ`); `null`,
`undefined` and `NaN` price values are modelled as `none : Option ℚ`.
JavaScript truthiness tests on numbers (`!x`, `if (x)`, `x ? a : b`) are
modelled faithfully: a numeric value is falsy exactly when it is `0`
(`none` — null/undefined/NaN — is always falsy).  Strings are modelled as
Lean `String`s.

Theorems are stated over these definitions; each claim of the external
claim list gets exactly one theorem, named `C<n>...` below.
-/

namespace Track

/-- The notification kinds of the mongoose `notificationSchema` enum
(`db.js`): `['price_drop', 'price_increase', 'back_in_stock']`. -/
inductive NotificationType where
  | price_drop
  | price_increase
  | back_in_stock
deriving DecidableEq, Repr

/-- A notification record as created by `checkPriceChanges` (`db.js`):
kind, human-readable message, and the threshold (the stored price that
triggered the comparison).  The `itemId` reference, `isRead` flag and
`createdAt` timestamp are not read by any claim and are omitted. -/
structure Notification where
  type : NotificationType
  message : String
  threshold : ℚ
deriving DecidableEq, Repr

/-- One entry of an item's `priceHistory` (`db.js` `itemSchema`):
`{price: Number, date: Date}`.  Dates are modelled as abstract `Nat`
timestamps. -/
structure PriceEntry where
  price : ℚ
  date : Nat
deriving DecidableEq, Repr

/-- A tracked item (`db.js` `itemSchema`), projected to the fields the
detector and the scrape route read: the nullable current `price`, the
append-only `priceHistory`, and `lastScraped`.  (`name`, `url`,
`category`, `description` are never read by the modelled logic.) -/
structure Item where
  price : Option ℚ
  priceHistory : List PriceEntry
  lastScraped : Nat
deriving DecidableEq, Repr

/-- Decimal digits of the fractional part `0 ≤ q < 1` of a rational,
with fuel; used to render prices the way JavaScript template literals
render the finite-decimal numbers appearing in the spec's examples. -/
def fracDigits : Nat → ℚ → String
  | 0, _ => ""
  | fuel + 1, q =>
    if q = 0 then ""
    else toString ⌊q * 10⌋ ++ fracDigits fuel (q * 10 - (⌊q * 10⌋ : ℚ))

/-- Decimal rendering of a nonnegative rational (integer part, then a dot
and the fractional digits if any). -/
def showNonnegPrice (q : ℚ) : String :=
  if q - (⌊q⌋ : ℚ) = 0 then toString ⌊q⌋
  else toString ⌊q⌋ ++ "." ++ fracDigits 20 (q - (⌊q⌋ : ℚ))

/-- Decimal rendering of a rational price.  This agrees with JavaScript's
number-to-string conversion (used by the template literal in
`checkPriceChanges`) on prices whose values are exact finite decimals,
such as `100` ↦ `"100"` and `98.5` ↦ `"98.5"`. -/
def showPrice (q : ℚ) : String :=
  if q < 0 then "-" ++ showNonnegPrice (-q) else showNonnegPrice q

/-- `checkPriceChanges(item, currentPrice)` from `db.js`:

```js
async function checkPriceChanges(item, currentPrice) {
  if (!currentPrice || !item.price) return;
  const priceDifference = currentPrice - item.price;
  const percentChange = (Math.abs(priceDifference) / item.price) * 100;
  if (percentChange > 1) {
    const notificationType = priceDifference < 0 ? 'price_drop' : 'price_increase';
    const message = `Price ... from $ ... to $ ...`;
    await Notification.create({ itemId, type, message, threshold: item.price });
  }
}
```

The result is the (at most one) notification created.  The JavaScript
falsiness guard `!currentPrice || !item.price` is true exactly when the
value is `null`/`undefined`/`NaN` (our `none`) or the number `0`. -/
def checkPriceChanges (item : Item) (currentPrice : Option ℚ) : Option Notification :=
  match currentPrice, item.price with
  | some curr, some prev =>
    if curr = 0 ∨ prev = 0 then none
    else
      let priceDifference := curr - prev
      let percentChange := |priceDifference| / prev * 100
      if percentChange > 1 then
        let notificationType :=
          if priceDifference < 0 then NotificationType.price_drop
          else NotificationType.price_increase
        some { type := notificationType
               message := "Price "
                 ++ (if notificationType = NotificationType.price_drop
                     then "dropped" else "increased")
                 ++ " from $" ++ showPrice prev ++ " to $" ++ showPrice curr
               threshold := prev }
      else none
  | _, _ => none

/-- The body of `POST /api/items/:id/scrape` (`db.js`), after the scrape
returned `scrapedPrice` at time `now`:

```js
if (scrapedData.price) {
  await checkPriceChanges(item, scrapedData.price);
  item.priceHistory.push({ price: scrapedData.price });
  item.price = scrapedData.price;
}
item.lastScraped = new Date();
```

Returns the updated item together with the notification (if any) created
by `checkPriceChanges`.  `if (scrapedData.price)` is a truthiness test:
it fails for `null` and for the number `0`. -/
def scrapeItemStep (item : Item) (scrapedPrice : Option ℚ) (now : Nat) :
    Item × Option Notification :=
  match scrapedPrice with
  | some p =>
    if p = 0 then ({ item with lastScraped := now }, none)
    else
      let notif := checkPriceChanges item (some p)
      ({ price := some p
         priceHistory := item.priceHistory ++ [⟨p, now⟩]
         lastScraped := now }, notif)
  | none => ({ item with lastScraped := now }, none)

/-- A product of the in-memory store (`server.js`), projected to the
fields read by the modelled operations: `id`, `name` and the numeric
`price` (the value of `parseFloat(productData.price) || 0`).  The other
`validatedProduct` fields (description, category, sourceUrl, imageUrl,
sku, stock, timestamps) are never read by order creation or the
dashboard. -/
structure Product where
  id : String
  name : String
  price : ℚ
deriving DecidableEq, Repr

/-- An order of the in-memory store (`server.js`), projected to the
fields the dashboard and the order endpoints read.  `status` is a plain
string: `PUT /api/orders/:id` stores any non-empty string without
validation.  `serial` models JavaScript object identity (the same order
object is aliased by the `orders` array and the `recentOrders` buffer);
it is assigned from a creation counter and is not part of the JSON
data. -/
structure Order where
  id : String
  productId : String
  quantity : ℤ
  totalPrice : ℚ
  status : String
  serial : Nat
deriving DecidableEq, Repr

/-- The mutable module-level state of `server.js`: the `products` and
`orders` arrays and the incrementally maintained `dashboardMetrics`
(`totalProducts`, `totalOrders`, `totalRevenue`, `recentOrders`).
`nextSerial` is the object-identity counter (see `Order.serial`).
The `variants` array and `totalVariants` are omitted: no modelled
operation or claim reads them. -/
structure ServerState where
  products : List Product
  orders : List Order
  totalProducts : Nat
  totalOrders : Nat
  totalRevenue : ℚ
  recentOrders : List Order
  nextSerial : Nat
deriving DecidableEq, Repr

/-- The state at server start: empty arrays, zeroed metrics. -/
def initialState : ServerState :=
  { products := [], orders := [], totalProducts := 0, totalOrders := 0
    totalRevenue := 0, recentOrders := [], nextSerial := 0 }

/-- `POST /api/products/scrape` (`server.js`): push the validated product
and refresh `totalProducts = products.length`.  `price` is the already
coerced number `parseFloat(productData.price) || 0`. -/
def scrapeProduct (s : ServerState) (id name : String) (price : ℚ) : ServerState :=
  let products := s.products ++ [{ id := id, name := name, price := price }]
  { s with products := products, totalProducts := products.length }

/-- The `recentOrders` update of `POST /api/orders` (`server.js`):

```js
dashboardMetrics.recentOrders.unshift(order);
if (dashboardMetrics.recentOrders.length > 10) {
  dashboardMetrics.recentOrders.pop();
}
``` -/
def pushRecent (recent : List Order) (o : Order) : List Order :=
  let r := o :: recent
  if r.length > 10 then r.dropLast else r

/-- `POST /api/orders` (`server.js`).  The new order requires an existing
product (404 otherwise, modelled as no state change); `totalPrice` is
`totalPrice ? parseFloat(totalPrice) : product.price * quantity` (the
truthiness test sends the number `0` to the default as well); the order
is created with status `"pending"`, appended to `orders`, added to the
running metrics, and unshifted into the bounded recent-orders buffer. -/
def createOrder (s : ServerState) (oid productId : String) (quantity : ℤ)
    (totalPrice : Option ℚ) : ServerState :=
  match s.products.find? (fun p => p.id == productId) with
  | none => s
  | some product =>
    let tp : ℚ :=
      match totalPrice with
      | some t => if t = 0 then product.price * (quantity : ℚ) else t
      | none => product.price * (quantity : ℚ)
    let order : Order :=
      { id := oid, productId := productId, quantity := quantity
        totalPrice := tp, status := "pending", serial := s.nextSerial }
    let orders := s.orders ++ [order]
    { s with orders := orders
             totalOrders := orders.length
             totalRevenue := s.totalRevenue + order.totalPrice
             recentOrders := pushRecent s.recentOrders order
             nextSerial := s.nextSerial + 1 }

/-- The in-place mutation of `PUT /api/orders/:id` (`server.js`),
projected to the `status` field (the `trackingNumber` and
`shippingAddress` updates touch no state any claim reads).
`if (status) order.status = status` is a truthiness test, so an absent or
empty string leaves the status unchanged.  The mutation happens in place
on the shared order object, hence it must be applied both to the `orders`
array and to any alias of the same object (same `serial`) in the
`recentOrders` buffer. -/
def applyStatusUpdate (targetSerial : Nat) (status : Option String) (o : Order) :
    Order :=
  if o.serial = targetSerial then
    match status with
    | some st => if st = "" then o else { o with status := st }
    | none => o
  else o

/-- `PUT /api/orders/:id`: look up the first order with the given id and
apply the in-place status mutation (see `applyStatusUpdate`) to that
object wherever it is aliased. -/
def updateOrder (s : ServerState) (oid : String) (status : Option String) :
    ServerState :=
  match s.orders.find? (fun o => o.id == oid) with
  | none => s
  | some target =>
    { s with orders := s.orders.map (applyStatusUpdate target.serial status)
             recentOrders := s.recentOrders.map (applyStatusUpdate target.serial status) }

/-- `orders.findIndex(...)` followed by `orders.splice(index, 1)`:
remove the first order with the given id, returning the remaining list
and the removed order (`none` when no order matches). -/
def removeFirstById : List Order → String → List Order × Option Order
  | [], _ => ([], none)
  | o :: rest, oid =>
    if o.id == oid then (rest, some o)
    else
      let r := removeFirstById rest oid
      (o :: r.1, r.2)

/-- `DELETE /api/orders/:id` (`server.js`): splice the first matching
order out, refresh `totalOrders = orders.length` and subtract the deleted
order's `totalPrice` from `totalRevenue`.  The `recentOrders` buffer is
not touched.  An unknown id is a 404: no state change. -/
def deleteOrder (s : ServerState) (oid : String) : ServerState :=
  match removeFirstById s.orders oid with
  | (_, none) => s
  | (orders, some deletedOrder) =>
    { s with orders := orders
             totalOrders := orders.length
             totalRevenue := s.totalRevenue - deletedOrder.totalPrice }

/-- One API invocation that touches the order store or its metrics. -/
inductive Step : ServerState → ServerState → Prop
  | scrape (s : ServerState) (id name : String) (price : ℚ) :
      Step s (scrapeProduct s id name price)
  | create (s : ServerState) (oid pid : String) (qty : ℤ) (tp : Option ℚ) :
      Step s (createOrder s oid pid qty tp)
  | update (s : ServerState) (oid : String) (st : Option String) :
      Step s (updateOrder s oid st)
  | delete (s : ServerState) (oid : String) :
      Step s (deleteOrder s oid)

/-- States reachable from server start through the modelled endpoints. -/
inductive Reachable : ServerState → Prop
  | init : Reachable initialState
  | step {s t : ServerState} : Reachable s → Step s t → Reachable t

/-- States reachable using only product scraping and order creation
(no order update or deletion): the setting of the recent-orders-buffer
claim. -/
inductive ReachableC : ServerState → Prop
  | init : ReachableC initialState
  | scrape {s : ServerState} (id name : String) (price : ℚ) :
      ReachableC s → ReachableC (scrapeProduct s id name price)
  | create {s : ServerState} (oid pid : String) (qty : ℤ) (tp : Option ℚ) :
      ReachableC s → ReachableC (createOrder s oid pid qty tp)

/-- The `orderStatuses` histogram computed by `GET /api/dashboard`
(`server.js`): one count per status of the fixed five-status set; the
record always carries exactly these five keys. -/
structure OrderStatuses where
  pending : Nat
  processing : Nat
  shipped : Nat
  delivered : Nat
  cancelled : Nat
deriving DecidableEq, Repr

/-- `orderStatuses` from `GET /api/dashboard`: each field is
`orders.filter(o => o.status === '...').length`. -/
def orderStatuses (orders : List Order) : OrderStatuses :=
  { pending := (orders.filter fun o => o.status == "pending").length
    processing := (orders.filter fun o => o.status == "processing").length
    shipped := (orders.filter fun o => o.status == "shipped").length
    delivered := (orders.filter fun o => o.status == "delivered").length
    cancelled := (orders.filter fun o => o.status == "cancelled").length }

/-- Sum of the five histogram counts. -/
def OrderStatuses.total (h : OrderStatuses) : Nat :=
  h.pending + h.processing + h.shipped + h.delivered + h.cancelled

/-- `productOrderCounts[pid] = (productOrderCounts[pid] || 0) + quantity`
on an association list kept in property-creation order: an existing key
keeps its position, a new key is appended. -/
def bumpCount : List (String × ℤ) → String → ℤ → List (String × ℤ)
  | [], pid, q => [(pid, q)]
  | (k, c) :: rest, pid, q =>
    if k == pid then (k, c + q) :: rest
    else (k, c) :: bumpCount rest pid q

/-- The `productOrderCounts` object of `GET /api/dashboard`: fold the
orders, summing quantities per `productId`. -/
def productOrderCounts (orders : List Order) : List (String × ℤ) :=
  orders.foldl (fun acc o => bumpCount acc o.productId o.quantity) []

/-- Parse a string of decimal digits (helper for the array-index-key
test; accumulator form). -/
def decDigitsToNat : List Char → Nat → Option Nat
  | [], acc => some acc
  | c :: rest, acc =>
    if '0' ≤ c ∧ c ≤ '9' then decDigitsToNat rest (10 * acc + (c.toNat - 48))
    else none

/-- Parse a nonempty all-digit string as a natural number. -/
def parseDecNat (s : String) : Option Nat :=
  if s.data.isEmpty then none else decDigitsToNat s.data 0

/-- Whether a JavaScript object property key is an array index: the
canonical decimal representation of some `n < 2^32 - 1`.  Such keys are
enumerated before all other keys, in ascending numeric order
(ECMAScript OrdinaryOwnPropertyKeys). -/
def isArrayIndexKey (s : String) : Bool :=
  match parseDecNat s with
  | some n => decide (toString n = s ∧ n < 4294967295)
  | none => false

/-- Numeric value of an array-index key (0 for other keys; only applied
to array-index keys). -/
def keyNumber (s : String) : Nat := (parseDecNat s).getD 0

/-- Ascending numeric order on array-index keys. -/
def byKeyAsc (a b : String × ℤ) : Prop := keyNumber a.1 ≤ keyNumber b.1

/-- Descending order by count (the JavaScript comparator `b - a`). -/
def byCountDesc (a b : String × ℤ) : Prop := b.2 ≤ a.2

instance : DecidableRel byKeyAsc :=
  fun a b => inferInstanceAs (Decidable (keyNumber a.1 ≤ keyNumber b.1))

instance : DecidableRel byCountDesc :=
  fun a b => inferInstanceAs (Decidable (b.2 ≤ a.2))

instance : IsTotal (String × ℤ) byKeyAsc :=
  ⟨fun a b => Nat.le_total (keyNumber a.1) (keyNumber b.1)⟩

instance : IsTrans (String × ℤ) byKeyAsc :=
  ⟨fun _ _ _ h1 h2 => Nat.le_trans h1 h2⟩

instance : IsTotal (String × ℤ) byCountDesc :=
  ⟨fun a b => le_total b.2 a.2⟩

instance : IsTrans (String × ℤ) byCountDesc :=
  ⟨fun _ _ _ h1 h2 => le_trans h2 h1⟩

/-- `Object.entries(counts)`: array-index keys first in ascending numeric
order, then the remaining keys in property-creation order (ECMAScript
OrdinaryOwnPropertyKeys). -/
def objectEntries (l : List (String × ℤ)) : List (String × ℤ) :=
  (l.filter fun e => isArrayIndexKey e.1).insertionSort byKeyAsc
    ++ l.filter fun e => !isArrayIndexKey e.1

/-- `.sort(([, a], [, b]) => b - a)`: stable sort, descending by count.
`List.insertionSort byCountDesc` is the stable sort for this comparator:
an element moves past another only when its count is strictly larger, and
elements with equal counts keep their relative order. -/
def sortByCountDesc (l : List (String × ℤ)) : List (String × ℤ) :=
  l.insertionSort byCountDesc

/-- One entry of the dashboard's `topProducts`. -/
structure TopProduct where
  productId : String
  name : String
  orderCount : ℤ
deriving DecidableEq, Repr

/-- `products.find(p => p.id === productId)?.name || 'Unknown'`: the
display name resolved at query time; `Unknown` when the product does not
exist (or has a falsy, i.e. empty, name). -/
def resolveProductName (products : List Product) (pid : String) : String :=
  match products.find? (fun p => p.id == pid) with
  | some p => if p.name = "" then "Unknown" else p.name
  | none => "Unknown"

/-- `topProducts` from `GET /api/dashboard`:

```js
const topProducts = Object.entries(productOrderCounts)
  .sort(([, a], [, b]) => b - a)
  .slice(0, 5)
  .map(([productId, count]) => ({ productId, name: ..., orderCount: count }));
``` -/
def topProducts (products : List Product) (orders : List Order) :
    List TopProduct :=
  ((sortByCountDesc (objectEntries (productOrderCounts orders))).take 5).map
    fun e =>
      { productId := e.1
        name := resolveProductName products e.1
        orderCount := e.2 }

/-- `dashboardMetrics.recentOrders.slice(0, 10)` as returned by
`GET /api/dashboard`. -/
def dashboardRecentOrders (s : ServerState) : List Order :=
  s.recentOrders.take 10

/-- `Number.prototype.toFixed(2)` on a rational value: round to the
nearest multiple of `1/100`, ties toward the larger value. -/
def jsToFixed2 (x : ℚ) : ℚ := (⌊x * 100 + 1 / 2⌋ : ℚ) / 100

/-- `averageOrderValue` from `GET /api/dashboard`:
`totalOrders > 0 ? (totalRevenue / totalOrders).toFixed(2) : 0`. -/
def averageOrderValue (s : ServerState) : ℚ :=
  if s.totalOrders > 0 then jsToFixed2 (s.totalRevenue / (s.totalOrders : ℚ))
  else 0

/-- Sum of the quantities of the orders of one product (the intended
meaning of grouping orders by `productId`). -/
def sumQuantities (orders : List Order) (pid : String) : ℤ :=
  ((orders.filter fun o => o.productId == pid).map (·.quantity)).sum

/-- Count held by an association list for a key (0 when absent). -/
def countOf (l : List (String × ℤ)) (pid : String) : ℤ :=
  match l.find? (fun e => e.1 == pid) with
  | some e => e.2
  | none => 0

/-- Example state: one product `p1` (price 10) scraped into the store. -/
def exProductState : ServerState := scrapeProduct initialState "p1" "Widget" 10

/-- Example state: one order `o1` for `p1` (quantity 1, total price 10)
created on top of `exProductState`. -/
def exOneOrderState : ServerState := createOrder exProductState "o1" "p1" 1 (some 10)

/-- The order object created by `exOneOrderState`. -/
def exOrder1 : Order :=
  { id := "o1", productId := "p1", quantity := 1, totalPrice := 10
    status := "pending", serial := 0 }

/-- Example state: the status of `o1` set to the out-of-set string
`"weird"` via `PUT /api/orders/:id` (which performs no validation). -/
def exWeirdState : ServerState := updateOrder exOneOrderState "o1" (some "weird")

/-- Example state: the status of `o1` set to `"cancelled"`. -/
def exCancelledState : ServerState := updateOrder exOneOrderState "o1" (some "cancelled")

/-- Example state: `o1` removed via `DELETE /api/orders/:id`. -/
def exDeletedState : ServerState := deleteOrder exOneOrderState "o1"

/-- Two products with array-index-like ids, for the top-products
tie-breaking example. -/
def tieProductList : List Product :=
  [{ id := "2", name := "B", price := 5 }, { id := "1", name := "A", price := 5 }]

/-- Two orders with equal quantities whose products are first encountered
in the order `"2"`, `"1"`. -/
def tieOrderList : List Order :=
  [{ id := "oa", productId := "2", quantity := 1, totalPrice := 5
     status := "pending", serial := 0 },
   { id := "ob", productId := "1", quantity := 1, totalPrice := 5
     status := "pending", serial := 1 }]

/-! ## Claims about the Price-Change Detector -/

/-- C8: when the stored previous price equals 0, `checkPriceChanges`
never creates a notification, whatever the current price is; the guard
`!item.price` (0 is falsy) returns before the percent-change division is
ever evaluated, so no `Infinity`/`NaN` propagates. -/
theorem C8_zero_previous_no_notification
    (hist : List PriceEntry) (ls : Nat) (c : Option ℚ) :
    checkPriceChanges { price := some 0, priceHistory := hist, lastScraped := ls } c
      = none := by
  cases c with
  | none => rfl
  | some q => simp [checkPriceChanges]

/-- The decimal rendering of the price 100 (as JavaScript renders the
number 100). -/
theorem showPrice_hundred : showPrice (100 : ℚ) = "100" := by
  rw [showPrice, if_neg (by norm_num)]
  rw [showNonnegPrice]
  norm_num
  decide

/-- The decimal rendering of the price 98.5 (as JavaScript renders the
number 98.5). -/
theorem showPrice_ninety_eight_point_five : showPrice (98.5 : ℚ) = "98.5" := by
  rw [showPrice, if_neg (by norm_num)]
  rw [showNonnegPrice]
  have hfl : ⌊(98.5 : ℚ)⌋ = 98 := by norm_num
  rw [hfl, if_neg (by norm_num)]
  have hfr : (98.5 : ℚ) - (98 : ℤ) = 1 / 2 := by norm_num
  rw [hfr]
  rw [fracDigits, if_neg (by norm_num)]
  have h5 : ⌊(1 / 2 : ℚ) * 10⌋ = 5 := by norm_num
  rw [h5]
  have h0 : (1 / 2 : ℚ) * 10 - (5 : ℤ) = 0 := by norm_num
  rw [h0]
  rw [fracDigits, if_pos rfl]
  decide

/-- C9: for `previous = 100, current = 98.5`, the detector creates a
`price_drop` notification with message exactly
`"Price dropped from $100 to $98.5"` (threshold 100), and for
`previous = 100, current = 100.5` (a 0.5% change) it creates none. -/
theorem C9_concrete_examples :
    checkPriceChanges { price := some 100, priceHistory := [], lastScraped := 0 }
        (some (98.5 : ℚ))
      = some { type := NotificationType.price_drop
               message := "Price dropped from $100 to $98.5"
               threshold := 100 }
    ∧ checkPriceChanges { price := some 100, priceHistory := [], lastScraped := 0 }
        (some (100.5 : ℚ))
      = none := by
  have habs1 : |(98.5 : ℚ) - 100| = 3 / 2 := by
    rw [show (98.5 : ℚ) - 100 = -(3 / 2) by norm_num, abs_neg,
        abs_of_nonneg (by norm_num : (0 : ℚ) ≤ 3 / 2)]
  have habs2 : |(100.5 : ℚ) - 100| = 1 / 2 := by
    rw [show (100.5 : ℚ) - 100 = 1 / 2 by norm_num,
        abs_of_nonneg (by norm_num : (0 : ℚ) ≤ 1 / 2)]
  constructor
  · simp only [checkPriceChanges]
    rw [if_neg (by norm_num)]
    rw [if_pos (show |(98.5 : ℚ) - 100| / 100 * 100 > 1 by rw [habs1]; norm_num)]
    have hty : (if (98.5 : ℚ) - 100 < 0 then NotificationType.price_drop
                else NotificationType.price_increase) = NotificationType.price_drop :=
      if_pos (by norm_num)
    rw [hty, showPrice_hundred, showPrice_ninety_eight_point_five]
    decide
  · simp only [checkPriceChanges]
    rw [if_neg (by norm_num)]
    rw [if_neg (show ¬|(100.5 : ℚ) - 100| / 100 * 100 > 1 by rw [habs2]; norm_num)]

/-- C1 counterexample: the price `0` is a present (non-null, non-NaN)
current price with `|0 - 100| / 100 * 100 = 100 > 1`, yet
`checkPriceChanges` creates no notification, because the JavaScript
guard `!currentPrice` also catches the number 0.  This falsifies the
claim as stated (quantified over all present current prices). -/
theorem C1_counterexample_current_zero :
    checkPriceChanges { price := some 100, priceHistory := [], lastScraped := 0 }
        (some (0 : ℚ))
      = none
    ∧ |(0 : ℚ) - 100| / 100 * 100 > 1 := by
  constructor
  · simp [checkPriceChanges]
  · norm_num

/-- C1 (amended): for every pair of prices with `previous > 0` and
`current` present **and nonzero**, `checkPriceChanges` creates exactly
one notification iff `|current - previous| / previous * 100 > 1`, and
the notification's kind is `price_drop` iff `current < previous` (else
`price_increase`). -/
theorem C1_threshold_and_kind
    (prev curr : ℚ) (hist : List PriceEntry) (ls : Nat)
    (hprev : 0 < prev) (hcurr : curr ≠ 0) :
    ((checkPriceChanges { price := some prev, priceHistory := hist, lastScraped := ls }
        (some curr)).isSome
      ↔ |curr - prev| / prev * 100 > 1)
    ∧ ∀ n,
        checkPriceChanges { price := some prev, priceHistory := hist, lastScraped := ls }
            (some curr)
          = some n →
        ((n.type = NotificationType.price_drop ↔ curr < prev)
         ∧ (n.type = NotificationType.price_increase ↔ ¬curr < prev)) := by
  have hpne : prev ≠ 0 := ne_of_gt hprev
  simp only [checkPriceChanges]
  rw [if_neg (by push_neg; exact ⟨hcurr, hpne⟩)]
  by_cases hgt : |curr - prev| / prev * 100 > 1
  · rw [if_pos hgt]
    have hne : curr ≠ prev := by
      intro h
      rw [h] at hgt
      simp at hgt
      exact absurd hgt (by norm_num)
    refine ⟨by simp [hgt], ?_⟩
    intro n hn
    have hn' := (Option.some_inj.mp hn).symm
    by_cases hlt : curr - prev < 0
    · have hc : curr < prev := sub_neg.mp hlt
      subst hn'
      simp [hlt, hc]
    · have hc : ¬curr < prev := fun h => hlt (sub_neg.mpr h)
      subst hn'
      simp [hlt, hc]
  · rw [if_neg hgt]
    exact ⟨by simp [hgt], fun n hn => by simp at hn⟩

/-- Witness for C1: the amended theorem applied at
`previous = 100, current = 98.5`. -/
theorem C1_threshold_and_kind_witness :
    ((checkPriceChanges { price := some 100, priceHistory := [], lastScraped := 0 }
        (some (98.5 : ℚ))).isSome
      ↔ |(98.5 : ℚ) - 100| / 100 * 100 > 1)
    ∧ ∀ n,
        checkPriceChanges { price := some 100, priceHistory := [], lastScraped := 0 }
            (some (98.5 : ℚ))
          = some n →
        ((n.type = NotificationType.price_drop ↔ (98.5 : ℚ) < 100)
         ∧ (n.type = NotificationType.price_increase ↔ ¬(98.5 : ℚ) < 100)) :=
  C1_threshold_and_kind 100 98.5 [] 0 (by norm_num) (by norm_num)

/-- C4 counterexample: the observed price `0` is non-null, yet the scrape
route's truthiness guard `if (scrapedData.price)` skips the history
append and the price overwrite, leaving the item unchanged (except for
`lastScraped`).  This falsifies the claim as stated (quantified over all
non-null observed prices). -/
theorem C4_counterexample_current_zero :
    (scrapeItemStep { price := some 5, priceHistory := [], lastScraped := 0 }
        (some (0 : ℚ)) 1).1.priceHistory = []
    ∧ (scrapeItemStep { price := some 5, priceHistory := [], lastScraped := 0 }
        (some (0 : ℚ)) 1).1.price = some 5 := by
  constructor <;> simp [scrapeItemStep]

/-- C4 (amended): when the previous or the current price is absent
(null/undefined/NaN), no notification is produced; and whenever the
observed current price is non-null **and nonzero**, the scrape operation
appends exactly one entry `{price: currentPrice, date: now}` to the
item's price history and overwrites the item's `price` field with
`currentPrice`, regardless of whether a notification fired. -/
theorem C4_absent_prices_and_history
    : (∀ (item : Item) (c : Option ℚ), item.price = none →
        checkPriceChanges item c = none)
    ∧ (∀ item : Item, checkPriceChanges item none = none)
    ∧ (∀ (item : Item) (p : ℚ) (now : Nat), p ≠ 0 →
        (scrapeItemStep item (some p) now).1.priceHistory
            = item.priceHistory ++ [{ price := p, date := now }]
        ∧ (scrapeItemStep item (some p) now).1.price = some p
        ∧ (scrapeItemStep item (some p) now).1.lastScraped = now) := by
  refine ⟨?_, ?_, ?_⟩
  · intro item c hnone
    cases c with
    | none => rfl
    | some q => simp [checkPriceChanges, hnone]
  · intro item
    rfl
  · intro item p now hp
    refine ⟨?_, ?_, ?_⟩ <;> simp [scrapeItemStep, hp]

/-- Witness for C4: the amended theorem applied at a concrete item with
stored price 5, an absent observation, and a nonzero observation 7 at
time 3. -/
theorem C4_absent_prices_and_history_witness :
    checkPriceChanges { price := none, priceHistory := [], lastScraped := 0 } (some 7)
      = none
    ∧ checkPriceChanges { price := some 5, priceHistory := [], lastScraped := 0 } none
      = none
    ∧ (scrapeItemStep { price := some 5, priceHistory := [], lastScraped := 0 }
        (some (7 : ℚ)) 3).1.priceHistory = [] ++ [{ price := 7, date := 3 }] :=
  ⟨C4_absent_prices_and_history.1 _ (some 7) rfl,
   C4_absent_prices_and_history.2.1 _,
   (C4_absent_prices_and_history.2.2 { price := some 5, priceHistory := [], lastScraped := 0 }
      7 3 (by norm_num)).1⟩

/-! ## Helper lemmas about the order store -/

/-- The status mutation never changes an order's `totalPrice`. -/
theorem applyStatusUpdate_totalPrice (ts : Nat) (st : Option String) (o : Order) :
    (applyStatusUpdate ts st o).totalPrice = o.totalPrice := by
  rcases st with _ | s <;> simp only [applyStatusUpdate] <;> split_ifs <;> rfl

/-- Splicing out the first matching order shortens the list by one and
removes exactly that order's `totalPrice` from the sum. -/
theorem removeFirstById_some {l : List Order} {oid : String} {l' : List Order}
    {d : Order} (h : removeFirstById l oid = (l', some d)) :
    l.length = l'.length + 1
    ∧ (l.map (·.totalPrice)).sum = (l'.map (·.totalPrice)).sum + d.totalPrice := by
  induction l generalizing l' with
  | nil => simp [removeFirstById] at h
  | cons o rest ih =>
    rw [removeFirstById] at h
    by_cases hid : (o.id == oid) = true
    · rw [if_pos hid] at h
      injection h with h1 h2
      injection h2 with h2
      subst h1
      subst h2
      simp [add_comm]
    · rw [if_neg hid] at h
      simp only at h
      rcases hr : removeFirstById rest oid with ⟨r1, r2⟩
      rw [hr] at h
      injection h with h1 h2
      subst h1
      subst h2
      obtain ⟨hlen, hsum⟩ := ih hr
      constructor
      · simp [hlen]
      · simp only [List.map_cons, List.sum_cons, hsum]
        ring

/-- `dashboardMetrics.totalOrders` equals `orders.length` in every
reachable state (both creation and deletion refresh it). -/
theorem reachable_totalOrders {s : ServerState} (h : Reachable s) :
    s.totalOrders = s.orders.length := by
  induction h with
  | init => rfl
  | step hr hstep ih =>
    cases hstep with
    | scrape id name price => simpa [scrapeProduct] using ih
    | create oid pid qty tp =>
      unfold createOrder
      split
      · exact ih
      · rfl
    | update oid st =>
      unfold updateOrder
      split
      · exact ih
      · simpa using ih
    | delete oid =>
      unfold deleteOrder
      split
      · exact ih
      · rfl

/-- `dashboardMetrics.totalRevenue` equals the sum of `totalPrice` over
the orders currently in the store, in every reachable state. -/
theorem reachable_totalRevenue {s : ServerState} (h : Reachable s) :
    s.totalRevenue = (s.orders.map (·.totalPrice)).sum := by
  induction h with
  | init => simp [initialState]
  | step hr hstep ih =>
    cases hstep with
    | scrape id name price => simpa [scrapeProduct] using ih
    | create oid pid qty tp =>
      unfold createOrder
      split
      · exact ih
      · simp [ih]
    | update oid st =>
      unfold updateOrder
      split
      · exact ih
      · simp only [List.map_map]
        rw [ih]
        congr 1
        apply List.map_congr_left
        intro o _
        exact (applyStatusUpdate_totalPrice _ _ o).symm
    | delete oid =>
      unfold deleteOrder
      split
      · exact ih
      · next l' d heq =>
        obtain ⟨_, hsum⟩ := removeFirstById_some heq
        simp only [ih, hsum]
        ring

/-- When every status in the list belongs to the five-status set, the
five histogram counts partition the list. -/
theorem orderStatuses_total_of_valid (l : List Order)
    (h : ∀ o ∈ l, o.status = "pending" ∨ o.status = "processing"
      ∨ o.status = "shipped" ∨ o.status = "delivered" ∨ o.status = "cancelled") :
    (orderStatuses l).total = l.length := by
  induction l with
  | nil => rfl
  | cons o t ih =>
    have ho := h o (List.mem_cons_self o t)
    have iht := ih fun x hx => h x (List.mem_cons_of_mem o hx)
    simp only [orderStatuses, OrderStatuses.total] at iht ⊢
    simp only [List.filter_cons]
    rcases ho with h1 | h1 | h1 | h1 | h1 <;> rw [h1] <;> simp <;> omega

/-- The one-order example state, written out literally. -/
theorem exOneOrderState_eq :
    exOneOrderState =
      { products := [{ id := "p1", name := "Widget", price := 10 }]
        orders := [exOrder1], totalProducts := 1, totalOrders := 1
        totalRevenue := 10, recentOrders := [exOrder1], nextSerial := 1 } := by
  have h1 : exProductState =
      { products := [{ id := "p1", name := "Widget", price := 10 }]
        orders := [], totalProducts := 1, totalOrders := 0
        totalRevenue := 0, recentOrders := [], nextSerial := 0 } := by decide
  rw [exOneOrderState, h1]
  simp [createOrder, pushRecent, exOrder1]

/-- `exOneOrderState` is reachable. -/
theorem exOneOrderState_reachable : Reachable exOneOrderState :=
  Reachable.step
    (Reachable.step Reachable.init (Step.scrape initialState "p1" "Widget" 10))
    (Step.create exProductState "o1" "p1" 1 (some 10))

/-- `exOneOrderState` is reachable by scraping and creation alone. -/
theorem exOneOrderState_reachableC : ReachableC exOneOrderState :=
  ReachableC.create "o1" "p1" 1 (some 10)
    (ReachableC.scrape "p1" "Widget" 10 ReachableC.init)

/-- The cancelled-order example state, written out literally. -/
theorem exCancelledState_eq :
    exCancelledState =
      { products := [{ id := "p1", name := "Widget", price := 10 }]
        orders := [{ exOrder1 with status := "cancelled" }]
        totalProducts := 1, totalOrders := 1, totalRevenue := 10
        recentOrders := [{ exOrder1 with status := "cancelled" }]
        nextSerial := 1 } := by
  rw [exCancelledState, exOneOrderState_eq]
  decide

/-- The weird-status example state, written out literally. -/
theorem exWeirdState_eq :
    exWeirdState =
      { products := [{ id := "p1", name := "Widget", price := 10 }]
        orders := [{ exOrder1 with status := "weird" }]
        totalProducts := 1, totalOrders := 1, totalRevenue := 10
        recentOrders := [{ exOrder1 with status := "weird" }]
        nextSerial := 1 } := by
  rw [exWeirdState, exOneOrderState_eq]
  decide

/-- The deleted-order example state, written out literally: the order is
gone from `orders` and the metrics, but still sits in `recentOrders`. -/
theorem exDeletedState_eq :
    exDeletedState =
      { products := [{ id := "p1", name := "Widget", price := 10 }]
        orders := [], totalProducts := 1, totalOrders := 0
        totalRevenue := 0, recentOrders := [exOrder1], nextSerial := 1 } := by
  rw [exDeletedState, exOneOrderState_eq]
  simp [deleteOrder, removeFirstById, exOrder1]

/-! ## Claims about the Aggregation Engine -/

/-- C2 counterexample: `PUT /api/orders/:id` stores the unvalidated
status string `"weird"`; in the resulting reachable state the five
histogram counts sum to 0 while `totalOrders = 1`.  This falsifies the
claimed invariant `sum(orderStatuses.values()) == totalOrders` over all
reachable states. -/
theorem C2_counterexample_weird_status :
    Reachable exWeirdState
    ∧ (orderStatuses exWeirdState.orders).total = 0
    ∧ exWeirdState.totalOrders = 1 := by
  refine ⟨Reachable.step exOneOrderState_reachable
    (Step.update exOneOrderState "o1" (some "weird")), ?_, ?_⟩
  · rw [exWeirdState_eq]
    decide
  · rw [exWeirdState_eq]

/-- C2 (amended): in every reachable state of the order store **in which
every stored status belongs to the five-status set** (statuses are
unvalidated strings, so other states are reachable via
`PUT /api/orders/:id`), the dashboard's `orderStatuses` histogram — whose
record always carries exactly the five keys `pending`, `processing`,
`shipped`, `delivered`, `cancelled` — has counts summing to
`totalOrders`. -/
theorem C2_statuses_sum (s : ServerState) (hr : Reachable s)
    (hv : ∀ o ∈ s.orders,
      o.status ∈ (["pending", "processing", "shipped", "delivered", "cancelled"] :
        List String)) :
    (orderStatuses s.orders).total = s.totalOrders := by
  rw [reachable_totalOrders hr]
  apply orderStatuses_total_of_valid
  intro o ho
  simpa using hv o ho

/-- Witness for C2: the amended theorem applied to the reachable
one-order state (whose only status is `"pending"`). -/
theorem C2_statuses_sum_witness :
    (orderStatuses exOneOrderState.orders).total = exOneOrderState.totalOrders :=
  C2_statuses_sum exOneOrderState exOneOrderState_reachable (by decide)

/-- C3 counterexample: cancelling an order (`PUT` with status
`"cancelled"`) does **not** subtract its `totalPrice` from
`totalRevenue`: in the reachable state below the only order is cancelled,
the sum over non-cancelled orders is 0, yet `totalRevenue` is still 10.
This falsifies the claim that cancellation reverses the order's revenue
contribution. -/
theorem C3_counterexample_cancellation :
    Reachable exCancelledState
    ∧ exCancelledState.totalRevenue = 10
    ∧ ((exCancelledState.orders.filter fun o => !(o.status == "cancelled")).map
        (·.totalPrice)).sum = 0
    ∧ (10 : ℚ) ≠ 0 := by
  refine ⟨Reachable.step exOneOrderState_reachable
    (Step.update exOneOrderState "o1" (some "cancelled")), ?_, ?_, by norm_num⟩
  · rw [exCancelledState_eq]
  · rw [exCancelledState_eq]
    simp [exOrder1]

/-- C3 (amended): in every reachable state, `totalRevenue` equals the
running sum of `order.totalPrice` over all orders currently in the store
(cancelled orders included); deletion subtracts the deleted order's
`totalPrice` from the running total, while cancellation (a status
update) leaves `totalRevenue` unchanged. -/
theorem C3_revenue_invariant :
    (∀ s : ServerState, Reachable s →
      s.totalRevenue = (s.orders.map (·.totalPrice)).sum)
    ∧ (∀ (s : ServerState) (oid : String) (l : List Order) (d : Order),
        removeFirstById s.orders oid = (l, some d) →
        (deleteOrder s oid).totalRevenue = s.totalRevenue - d.totalPrice)
    ∧ (∀ (s : ServerState) (oid : String) (st : Option String),
        (updateOrder s oid st).totalRevenue = s.totalRevenue) := by
  refine ⟨fun s hr => reachable_totalRevenue hr, ?_, ?_⟩
  · intro s oid l d h
    unfold deleteOrder
    rw [h]
  · intro s oid st
    unfold updateOrder
    split <;> rfl

/-- Witness for C3: the invariant at the reachable one-order state, and
the deletion step subtracting that order's price. -/
theorem C3_revenue_invariant_witness :
    exOneOrderState.totalRevenue = (exOneOrderState.orders.map (·.totalPrice)).sum
    ∧ (deleteOrder exOneOrderState "o1").totalRevenue
        = exOneOrderState.totalRevenue - exOrder1.totalPrice :=
  ⟨C3_revenue_invariant.1 exOneOrderState exOneOrderState_reachable,
   C3_revenue_invariant.2.1 exOneOrderState "o1" [] exOrder1 (by
     rw [exOneOrderState_eq]
     decide)⟩

/-- Inserting into a 10-truncated buffer is the same as truncating after
prepending: the exact arithmetic of `unshift` + conditional `pop`. -/
theorem pushRecent_take (l : List Order) (o : Order) :
    pushRecent (l.take 10) o = (o :: l).take 10 := by
  unfold pushRecent
  by_cases h : l.length ≤ 9
  · rw [List.take_of_length_le (by omega)]
    rw [if_neg (by simp; omega)]
    rw [List.take_succ_cons, List.take_of_length_le (by omega)]
  · rw [if_pos (by simp [List.length_take]; omega)]
    rw [List.dropLast_eq_take]
    have hlen : (o :: List.take 10 l).length - 1 = 10 := by
      simp [List.length_take]
      omega
    rw [hlen, List.take_succ_cons, List.take_take]
    simp

/-- C6: in every state reachable by creating orders (and scraping
products), the recent-orders buffer holds at most 10 entries and is
exactly the reverse of the creation order truncated to the 10 most
recent — most recently created first, oldest evicted at capacity. -/
theorem C6_recent_orders_buffer (s : ServerState) (h : ReachableC s) :
    s.recentOrders = s.orders.reverse.take 10
    ∧ s.recentOrders.length ≤ 10 := by
  have key : s.recentOrders = s.orders.reverse.take 10 := by
    induction h with
    | init => rfl
    | scrape id name price hr ih => simpa [scrapeProduct] using ih
    | create oid pid qty tp hr ih =>
      unfold createOrder
      split
      · exact ih
      · simp only [ih, List.reverse_append, List.reverse_cons, List.reverse_nil,
          List.nil_append, List.singleton_append]
        exact pushRecent_take _ _
  exact ⟨key, by rw [key]; exact (List.length_take_le _ _)⟩

/-- Witness for C6: the buffer property at the reachable one-order
state. -/
theorem C6_recent_orders_buffer_witness :
    exOneOrderState.recentOrders = exOneOrderState.orders.reverse.take 10
    ∧ exOneOrderState.recentOrders.length ≤ 10 :=
  C6_recent_orders_buffer exOneOrderState exOneOrderState_reachableC

/-- C7: in every reachable state, `averageOrderValue` is 0 when there are
no orders (the `totalOrders > 0` guard prevents any division by zero),
and otherwise equals `totalRevenue / totalOrders` rounded to 2 decimal
places — spelled out through the revenue and count invariants. -/
theorem C7_average_order_value (s : ServerState) (hr : Reachable s) :
    (s.totalOrders = 0 → averageOrderValue s = 0)
    ∧ (0 < s.totalOrders →
        averageOrderValue s
          = jsToFixed2 ((s.orders.map (·.totalPrice)).sum / (s.orders.length : ℚ))) := by
  constructor
  · intro h0
    rw [averageOrderValue, if_neg (by omega)]
  · intro hpos
    rw [averageOrderValue, if_pos hpos, reachable_totalRevenue hr,
      reachable_totalOrders hr]

/-- Witness for C7: the positive-orders case at the reachable one-order
state. -/
theorem C7_average_order_value_witness :
    averageOrderValue exOneOrderState
      = jsToFixed2 ((exOneOrderState.orders.map (·.totalPrice)).sum
          / (exOneOrderState.orders.length : ℚ)) :=
  (C7_average_order_value exOneOrderState exOneOrderState_reachable).2 (by
    rw [exOneOrderState_eq]
    decide)

/-- C10: `DELETE /api/orders/:id` never touches the recent-orders buffer
(first conjunct), and in the concrete reachable state `exDeletedState`
the deleted order `exOrder1` is gone from the order collection and the
metrics (`totalOrders` back to 0, its `totalPrice` subtracted from
`totalRevenue`) yet still appears in the dashboard's `recentOrders`
slice. -/
theorem C10_delete_keeps_recent_orders :
    (∀ (s : ServerState) (oid : String),
      (deleteOrder s oid).recentOrders = s.recentOrders)
    ∧ Reachable exDeletedState
    ∧ exOrder1 ∈ dashboardRecentOrders exDeletedState
    ∧ exOrder1 ∉ exDeletedState.orders
    ∧ exDeletedState.totalOrders = 0
    ∧ exDeletedState.totalRevenue
        = exOneOrderState.totalRevenue - exOrder1.totalPrice := by
  refine ⟨?_, Reachable.step exOneOrderState_reachable
    (Step.delete exOneOrderState "o1"), ?_, ?_, ?_, ?_⟩
  · intro s oid
    unfold deleteOrder
    split <;> rfl
  · rw [dashboardRecentOrders, exDeletedState_eq]
    decide
  · rw [exDeletedState_eq]
    decide
  · rw [exDeletedState_eq]
  · rw [exDeletedState_eq, exOneOrderState_eq]
    norm_num [exOrder1]

/-! ## Helper lemmas about `topProducts` -/

/-- `countOf` on a cons cell. -/
theorem countOf_cons (x : String × ℤ) (l : List (String × ℤ)) (pid : String) :
    countOf (x :: l) pid = if x.1 = pid then x.2 else countOf l pid := by
  by_cases h : x.1 = pid
  · simp [countOf, List.find?_cons, h]
  · simp [countOf, List.find?_cons, h]

/-- How one `counts[pid] = (counts[pid] || 0) + q` write changes each
key's count. -/
theorem countOf_bumpCount (acc : List (String × ℤ)) (k : String) (q : ℤ)
    (pid : String) :
    countOf (bumpCount acc k q) pid
      = if pid = k then countOf acc pid + q else countOf acc pid := by
  induction acc with
  | nil =>
    by_cases h : pid = k
    · subst h
      simp [bumpCount, countOf_cons, countOf]
    · have hkp : ¬k = pid := fun hh => h hh.symm
      simp [bumpCount, countOf_cons, countOf, h, hkp]
  | cons e rest ih =>
    obtain ⟨k', c'⟩ := e
    rw [bumpCount]
    by_cases hk : k' = k
    · subst hk
      rw [if_pos (by simp)]
      by_cases hp : pid = k'
      · subst hp
        simp [countOf_cons]
      · have hkp : ¬k' = pid := fun hh => hp hh.symm
        simp [countOf_cons, hp, hkp]
    · rw [if_neg (by simpa using hk)]
      by_cases hp : k' = pid
      · subst hp
        have hpk : ¬k' = k := hk
        simp [countOf_cons, hpk]
      · simp [countOf_cons, hp, ih]

/-- `sumQuantities` on a cons cell. -/
theorem sumQuantities_cons (o : Order) (rest : List Order) (pid : String) :
    sumQuantities (o :: rest) pid
      = (if o.productId = pid then o.quantity else 0) + sumQuantities rest pid := by
  by_cases h : o.productId = pid
  · simp [sumQuantities, List.filter_cons, h]
  · simp [sumQuantities, List.filter_cons, h]

/-- The fold building `productOrderCounts` accumulates, for every key,
exactly the sum of the matching quantities. -/
theorem countOf_fold (orders : List Order) (acc : List (String × ℤ))
    (pid : String) :
    countOf (orders.foldl (fun a o => bumpCount a o.productId o.quantity) acc) pid
      = countOf acc pid + sumQuantities orders pid := by
  induction orders generalizing acc with
  | nil => simp [sumQuantities]
  | cons o rest ih =>
    rw [List.foldl_cons, ih, countOf_bumpCount, sumQuantities_cons]
    by_cases h : pid = o.productId
    · rw [if_pos h, if_pos h.symm]
      ring
    · rw [if_neg h, if_neg (fun hh => h hh.symm)]
      ring

/-- A `bumpCount` write either keeps the key list or appends the new
key. -/
theorem bumpCount_keys (acc : List (String × ℤ)) (k : String) (q : ℤ) :
    (bumpCount acc k q).map Prod.fst = acc.map Prod.fst
    ∨ (bumpCount acc k q).map Prod.fst = acc.map Prod.fst ++ [k] := by
  induction acc with
  | nil => right; simp [bumpCount]
  | cons e rest ih =>
    obtain ⟨k', c'⟩ := e
    rw [bumpCount]
    by_cases hk : k' = k
    · subst hk
      rw [if_pos (by simp)]
      left
      simp
    · rw [if_neg (by simpa using hk)]
      rcases ih with h | h
      · left; simp [h]
      · right; simp [h]

/-- `bumpCount` preserves distinctness of the keys. -/
theorem bumpCount_keys_nodup (acc : List (String × ℤ)) (k : String) (q : ℤ)
    (h : (acc.map Prod.fst).Nodup) :
    ((bumpCount acc k q).map Prod.fst).Nodup := by
  induction acc with
  | nil => simp [bumpCount]
  | cons e rest ih =>
    obtain ⟨k', c'⟩ := e
    rw [List.map_cons, List.nodup_cons] at h
    rw [bumpCount]
    by_cases hk : k' = k
    · subst hk
      rw [if_pos (by simp)]
      simpa using h
    · rw [if_neg (by simpa using hk)]
      rw [List.map_cons, List.nodup_cons]
      refine ⟨?_, ih h.2⟩
      rcases bumpCount_keys rest k q with hkeys | hkeys
      · rw [hkeys]; exact h.1
      · rw [hkeys]
        simp only [List.mem_append, List.mem_singleton]
        rintro (hin | rfl)
        · exact h.1 hin
        · exact hk rfl

/-- The keys of `productOrderCounts` are distinct (object keys are
unique). -/
theorem productOrderCounts_keys_nodup (orders : List Order) :
    ((productOrderCounts orders).map Prod.fst).Nodup := by
  rw [productOrderCounts]
  have general : ∀ acc : List (String × ℤ), (acc.map Prod.fst).Nodup →
      ((orders.foldl (fun a o => bumpCount a o.productId o.quantity) acc).map
        Prod.fst).Nodup := by
    induction orders with
    | nil => intro acc h; simpa using h
    | cons o rest ih =>
      intro acc h
      rw [List.foldl_cons]
      exact ih _ (bumpCount_keys_nodup acc o.productId o.quantity h)
  exact general [] (by simp)

/-- With distinct keys, membership determines the count. -/
theorem countOf_of_mem {l : List (String × ℤ)}
    (hnd : (l.map Prod.fst).Nodup) {e : String × ℤ} (he : e ∈ l) :
    countOf l e.1 = e.2 := by
  induction l with
  | nil => cases he
  | cons x rest ih =>
    rw [List.map_cons, List.nodup_cons] at hnd
    rcases List.mem_cons.mp he with rfl | hin
    · rw [countOf_cons, if_pos rfl]
    · rw [countOf_cons]
      rw [if_neg ?_]
      · exact ih hnd.2 hin
      · intro hx
        exact hnd.1 (hx ▸ List.mem_map_of_mem Prod.fst hin)

/-- Every entry of `productOrderCounts` carries the sum of the matching
quantities. -/
theorem mem_productOrderCounts_eq_sum {orders : List Order}
    {e : String × ℤ} (he : e ∈ productOrderCounts orders) :
    e.2 = sumQuantities orders e.1 := by
  have h1 := countOf_of_mem (productOrderCounts_keys_nodup orders) he
  have h2 := countOf_fold orders [] e.1
  rw [productOrderCounts] at h1
  rw [h2] at h1
  simpa [countOf] using h1.symm

/-- `Object.entries` only reorders: membership is preserved. -/
theorem mem_of_mem_objectEntries {l : List (String × ℤ)} {e : String × ℤ}
    (h : e ∈ objectEntries l) : e ∈ l := by
  rw [objectEntries] at h
  rcases List.mem_append.mp h with h | h
  · exact List.mem_of_mem_filter
      ((List.perm_insertionSort byKeyAsc _).mem_iff.mp h)
  · exact List.mem_of_mem_filter h

/-- The descending sort only reorders: membership is preserved. -/
theorem mem_of_mem_sortByCountDesc {l : List (String × ℤ)} {e : String × ℤ}
    (h : e ∈ sortByCountDesc l) : e ∈ l :=
  (List.perm_insertionSort byCountDesc l).mem_iff.mp h

/-- The descending sort is sorted (descending by count). -/
theorem sortByCountDesc_sorted (l : List (String × ℤ)) :
    (sortByCountDesc l).Pairwise byCountDesc :=
  List.sorted_insertionSort byCountDesc l

/-! ## Claims about `topProducts` -/

/-- C5 counterexample: with the array-index-like product ids `"1"` and
`"2"`, equal summed quantities, and `"2"` encountered first, the
dashboard lists product `"1"` first: `Object.entries` enumerates
array-index keys in ascending numeric order, not in first-encountered
order, so the claimed first-encountered tie-breaking is false. -/
theorem C5_counterexample_tie_order :
    (topProducts tieProductList tieOrderList).map (fun t => t.productId)
      = ["1", "2"]
    ∧ (productOrderCounts tieOrderList).map Prod.fst = ["2", "1"]
    ∧ (productOrderCounts tieOrderList).map Prod.snd = [1, 1] := by
  refine ⟨?_, ?_, ?_⟩ <;> decide

/-- C5 (amended): for every order collection, `topProducts` has length at
most 5, is obtained by grouping orders by `productId` and summing
quantities, is sorted descending by summed quantity **with ties broken by
the `Object.entries` enumeration order of the counts object (array-index
ids first in ascending numeric order, then the remaining ids in
first-encountered order; the sort itself is stable)**, and each entry
resolves the product's display name at query time, showing `"Unknown"`
when no product with that id exists. -/
theorem C5_top_products (products : List Product) (orders : List Order) :
    (topProducts products orders).length ≤ 5
    ∧ (topProducts products orders).Pairwise
        (fun a b => b.orderCount ≤ a.orderCount)
    ∧ (∀ t ∈ topProducts products orders,
        t.orderCount = sumQuantities orders t.productId
        ∧ t.name = resolveProductName products t.productId)
    ∧ ((topProducts products orders).map fun t => (t.productId, t.orderCount))
        = (sortByCountDesc (objectEntries (productOrderCounts orders))).take 5 := by
  refine ⟨?_, ?_, ?_, ?_⟩
  · rw [topProducts, List.length_map]
    exact List.length_take_le _ _
  · rw [topProducts, List.pairwise_map]
    exact List.Pairwise.sublist (List.take_sublist 5 _)
      (sortByCountDesc_sorted (objectEntries (productOrderCounts orders)))
  · intro t ht
    rw [topProducts] at ht
    obtain ⟨e, he5, rfl⟩ := List.mem_map.mp ht
    have hePC : e ∈ productOrderCounts orders :=
      mem_of_mem_objectEntries
        (mem_of_mem_sortByCountDesc ((List.take_sublist 5 _).subset he5))
    exact ⟨mem_productOrderCounts_eq_sum hePC, rfl⟩
  · rw [topProducts, List.map_map]
    rw [List.map_congr_left
      (fun (e : String × ℤ) _ =>
        (rfl : ((fun t : TopProduct => (t.productId, t.orderCount)) ∘ fun e =>
          { productId := e.1, name := resolveProductName products e.1
            orderCount := e.2 }) e = e))]
    exact List.map_id _

/-- Witness for C5: the grouping and name-resolution facts applied to
the concrete member `{productId := "1", name := "A", orderCount := 1}`
of the tie example's top-products list. -/
theorem C5_top_products_witness :
    (TopProduct.mk "1" "A" 1).orderCount = sumQuantities tieOrderList "1"
    ∧ (TopProduct.mk "1" "A" 1).name = resolveProductName tieProductList "1" :=
  (C5_top_products tieProductList tieOrderList).2.2.1
    (TopProduct.mk "1" "A" 1) (by decide)

end Track

